import Mathlib

/-!
Verification development for the TiDB/Kafka change-event pipeline:
the backend write paths publish `ChangeRecord`s to the `database-changes`
topic, and a consumer process decodes, decorates and logs them.

JavaScript values are modelled shallowly: JS numbers appearing in the
pipeline are integers (epoch milliseconds, counters, row ids) and are
modelled as `Int`/`Nat`; the statistics arithmetic is modelled over `ℚ`
(exact rationals standing in for JS floats); a JS exception is modelled
as `Except.error`, and a `try`/`catch` as a `match` on the `Except`.
-/

/-- JSON values as handled by the JavaScript JSON library.  Every number the
pipeline produces is an integer, so numbers are modelled as `Int`. -/
inductive Json where
  | null
  | bool (b : Bool)
  | num (n : Int)
  | str (s : String)
  | arr (elems : List Json)
  | obj (fields : List (String × Json))

/-- Skip JSON whitespace. -/
def skipWs : List Char → List Char
  | c :: cs => if c = ' ' ∨ c = '\n' ∨ c = '\t' ∨ c = '\r' then skipWs cs else c :: cs
  | [] => []

/-- Read the body of a JSON string literal up to the closing quote
(model: escape sequences are not interpreted; no payload of the pipeline contain them). -/
def takeStringLit : List Char → Option (String × List Char)
  | [] => none
  | c :: cs =>
    if c = '\x22' then some ("", cs)
    else
      match takeStringLit cs with
      | some (s, rest) => some (String.singleton c ++ s, rest)
      | none => none

/-- Split a leading run of decimal digits off the input. -/
def takeDigits : List Char → List Char × List Char
  | c :: cs =>
    if c.isDigit then
      let p := takeDigits cs
      (c :: p.1, p.2)
    else ([], c :: cs)
  | [] => ([], [])

/-- Numeric value of a digit run. -/
def digitsToNat (ds : List Char) : Nat :=
  ds.foldl (fun acc c => acc * 10 + (c.toNat - 48)) 0

mutual

/-- Fuel-based recursive-descent model of `JSON.parse` on one value.
Returns the value and the unconsumed input, or `none` on a syntax error. -/
def parseVal : Nat → List Char → Option (Json × List Char)
  | 0, _ => none
  | fuel + 1, input =>
    match skipWs input with
    | [] => none
    | c :: cs =>
      if c = 'n' then
        match cs with
        | 'u' :: 'l' :: 'l' :: r => some (Json.null, r)
        | _ => none
      else if c = 't' then
        match cs with
        | 'r' :: 'u' :: 'e' :: r => some (Json.bool true, r)
        | _ => none
      else if c = 'f' then
        match cs with
        | 'a' :: 'l' :: 's' :: 'e' :: r => some (Json.bool false, r)
        | _ => none
      else if c = '\x22' then
        match takeStringLit cs with
        | some (s, r) => some (Json.str s, r)
        | none => none
      else if c = '-' then
        match takeDigits cs with
        | ([], _) => none
        | (ds, r) => some (Json.num (-(digitsToNat ds : Int)), r)
      else if c.isDigit then
        match takeDigits (c :: cs) with
        | (ds, r) => some (Json.num (digitsToNat ds : Int), r)
      else if c = '[' then
        match skipWs cs with
        | ']' :: r => some (Json.arr [], r)
        | rest =>
          match parseElemsRest fuel rest with
          | some (vs, r) => some (Json.arr vs, r)
          | none => none
      else if c = '\x7b' then
        match skipWs cs with
        | '\x7d' :: r => some (Json.obj [], r)
        | rest =>
          match parseFieldsRest fuel rest with
          | some (fs, r) => some (Json.obj fs, r)
          | none => none
      else none

/-- Parse one array element, then either a comma (more elements) or the
closing bracket. -/
def parseElemsRest : Nat → List Char → Option (List Json × List Char)
  | 0, _ => none
  | fuel + 1, input =>
    match parseVal fuel input with
    | none => none
    | some (v, rest) =>
      match skipWs rest with
      | ',' :: r =>
        match parseElemsRest fuel r with
        | some (vs, r2) => some (v :: vs, r2)
        | none => none
      | ']' :: r => some ([v], r)
      | _ => none

/-- Parse one `key: value` field, then either a comma (more fields) or the
closing brace. -/
def parseFieldsRest : Nat → List Char → Option (List (String × Json) × List Char)
  | 0, _ => none
  | fuel + 1, input =>
    match skipWs input with
    | '\x22' :: cs =>
      match takeStringLit cs with
      | none => none
      | some (k, rest) =>
        match skipWs rest with
        | ':' :: afterColon =>
          match parseVal fuel afterColon with
          | none => none
          | some (v, rest2) =>
            match skipWs rest2 with
            | ',' :: r =>
              match parseFieldsRest fuel r with
              | some (fs, r2) => some ((k, v) :: fs, r2)
              | none => none
            | '\x7d' :: r => some ([(k, v)], r)
            | _ => none
        | _ => none
    | _ => none

end

/-- Model of `JSON.parse`: parse one value and require the remaining input to
be whitespace only.  `none` models the thrown `SyntaxError`. -/
def Json.parse (s : String) : Option Json :=
  match parseVal (s.length + 1) s.toList with
  | some (v, rest) => if skipWs rest = [] then some v else none
  | none => none

/-- A JSON string literal as `JSON.stringify` prints it (model: no escaping;
the strings of this pipeline contain no characters needing escapes). -/
def renderStringLit (s : String) : String := "\x22" ++ s ++ "\x22"

mutual

/-- Model of `JSON.stringify` on a JSON value. -/
def Json.render : Json → String
  | Json.null => "null"
  | Json.bool true => "true"
  | Json.bool false => "false"
  | Json.num n => toString n
  | Json.str s => renderStringLit s
  | Json.arr es => "[" ++ renderElems es ++ "]"
  | Json.obj fs => "\x7b" ++ renderFields fs ++ "\x7d"

/-- Comma-separated rendering of array elements. -/
def renderElems : List Json → String
  | [] => ""
  | [v] => Json.render v
  | v :: vs => Json.render v ++ "," ++ renderElems vs

/-- Comma-separated rendering of object fields. -/
def renderFields : List (String × Json) → String
  | [] => ""
  | [(k, v)] => renderStringLit k ++ ":" ++ Json.render v
  | (k, v) :: fs => renderStringLit k ++ ":" ++ Json.render v ++ "," ++ renderFields fs

end

/-- JS property access `j.name` on a parsed JSON value: `none` models
`undefined` (absent field, or access on a non-object primitive/array). -/
def Json.getField (j : Json) (name : String) : Option Json :=
  match j with
  | Json.obj fs => (fs.find? (fun kv => kv.1 == name)).map Prod.snd
  | _ => none

/-- Model of `Date.prototype.toISOString`: an injective rendering of the
epoch-milliseconds clock value as a string. -/
def toISOString (t : Int) : String := "ISO:" ++ toString t

/-- Model of parsing a date string produced by `toISOString` back to epoch
milliseconds (`new Date(string)`); `none` models an `Invalid Date` (`NaN`). -/
def parseDate (s : String) : Option Int :=
  match s.toList with
  | 'I' :: 'S' :: 'O' :: ':' :: '-' :: rest =>
    (match takeDigits rest with
     | (ds, []) => if ds.isEmpty then none else some (-(digitsToNat ds : Int))
     | _ => none)
  | 'I' :: 'S' :: 'O' :: ':' :: rest =>
    (match takeDigits rest with
     | (ds, []) => if ds.isEmpty then none else some (digitsToNat ds : Int)
     | _ => none)
  | _ => none

/-- Model of `new Date(v)` applied to a field of a parsed JSON value
(`none` argument models `undefined`).  Follows the JS coercions: strings are
parsed as dates, numbers are epoch milliseconds, `null` coerces to 0,
booleans to 0/1; everything else is an `Invalid Date` (`none`). -/
def jsDate (v : Option Json) : Option Int :=
  match v with
  | some (Json.str s) => parseDate s
  | some (Json.num n) => some n
  | some Json.null => some 0
  | some (Json.bool b) => some (if b then 1 else 0)
  | _ => none

/-- A record as delivered by the Kafka client to `eachMessage`:
`value` is the raw payload bytes (`none` models a null value). -/
structure KafkaMessage where
  offset : Nat
  key : Option String
  value : Option String

/-- Mutable state of `DatabaseChangeProcessor` (`processedCount`,
`startTime` as epoch milliseconds). -/
structure ProcessorState where
  processedCount : Nat
  startTime : Int

/-- The `processedChange` object built by `processChange` and emitted to the
observability sink.  Fields read off the parsed payload are `Option Json`
(`none` models a JS `undefined` field). -/
structure ProcessedChange where
  timestamp : Int
  originalTimestamp : Option Json
  operation : Option Json
  table : Option Json
  data : Option Json
  userId : Option Json
  processedBy : String
  processingLatency : Option Int

/-- The statistics snapshot logged every 10th record. -/
structure Stats where
  timestamp : Int
  totalProcessed : Nat
  uptime : Int
  averageProcessingRate : ℚ

/-- One line written by the consumer process to its loggers. -/
inductive LogEvent where
  | kafkaInfo (offset : Nat) (key : Option String)
  | processedRecord (p : ProcessedChange)
  | statsLine (s : Stats)
  | errorLine (msg : String)

/-- `DatabaseChangeProcessor.calculateLatency` on valid dates:
`Math.max(0, now - original)` in milliseconds. -/
def calculateLatency (now originalMs : Int) : Int := max 0 (now - originalMs)

/-- `calculateLatency` applied to the raw `changeData.timestamp` field:
an invalid/absent date gives `NaN` (modelled `none`), otherwise the clamped
difference. -/
def calculateLatencyField (now : Int) (originalField : Option Json) : Option Int :=
  (jsDate originalField).map (fun o => calculateLatency now o)

/-- The statistics snapshot as built at line 82-87 of the consumer:
`uptime = Math.round(elapsedMs / 1000)` and
`rate = Math.round(count / (elapsedMs / 1000 / 60) * 100) / 100`. -/
def mkStats (st : ProcessorState) (now : Int) (newCount : Nat) : Stats :=
  { timestamp := now
    totalProcessed := newCount
    uptime := round (((now - st.startTime : Int) : ℚ) / 1000)
    averageProcessingRate :=
      ((round ((newCount : ℚ) / (((now - st.startTime : Int) : ℚ) / 1000 / 60) * 100) : Int) : ℚ)
        / 100 }

/-- The `processedChange` object literal at lines 63-72 of the consumer,
built from the parsed payload `cd` and the processing wall clock `now`. -/
def mkProcessed (now : Int) (cd : Json) : ProcessedChange :=
  { timestamp := now
    originalTimestamp := cd.getField "timestamp"
    operation := cd.getField "operation"
    table := cd.getField "table"
    data := cd.getField "data"
    userId := cd.getField "userId"
    processedBy := "kafka-consumer"
    processingLatency := calculateLatencyField now (cd.getField "timestamp") }

/-- The `try` block of `DatabaseChangeProcessor.processChange`:
`JSON.parse(message.value.toString())`, building of `processedChange`, the
sink emission, the counter increment and the every-10th statistics line.
`Except.error` models a thrown JS exception: reading `.toString()` of a null
value, a `JSON.parse` syntax error, or reading a property of a parsed `null`. -/
def tryProcessChange (st : ProcessorState) (now : Int) (msg : KafkaMessage) :
    Except String (ProcessorState × List LogEvent) :=
  match msg.value with
  | none => Except.error "Cannot read properties of null (reading toString)"
  | some raw =>
    match Json.parse raw with
    | none => Except.error "Unexpected token in JSON"
    | some changeData =>
      match changeData with
      | Json.null => Except.error "Cannot read properties of null (reading timestamp)"
      | cd =>
        Except.ok ({ st with processedCount := st.processedCount + 1 },
          LogEvent.processedRecord (mkProcessed now cd) ::
            (if (st.processedCount + 1) % 10 = 0 then
              [LogEvent.statsLine (mkStats st now (st.processedCount + 1))] else []))

/-- `DatabaseChangeProcessor.processChange`: the `try` body with its
`catch` — any thrown error becomes a single `logger.error` line and the
state is left unchanged; the function always returns normally. -/
def processChange (st : ProcessorState) (now : Int) (msg : KafkaMessage) :
    ProcessorState × List LogEvent :=
  match tryProcessChange st now msg with
  | Except.ok r => r
  | Except.error e => (st, [LogEvent.errorLine ("Error processing database change: " ++ e)])

/-- The `eachMessage` handler passed to `consumer.run`: logs the message
info, then awaits `processChange`.  Its result type is `Except` because a
rejection escaping the handler would crash the consumer run loop; since
`processChange` catches internally, the handler always resolves. -/
def eachMessage (st : ProcessorState) (now : Int) (msg : KafkaMessage) :
    Except String (ProcessorState × List LogEvent) :=
  let r := processChange st now msg
  Except.ok (r.1, LogEvent.kafkaInfo msg.offset msg.key :: r.2)

/-- Whether the consumer run loop is still consuming or has been stopped by
an error escaping a message handler. -/
inductive LoopStatus where
  | running
  | crashed (err : String)
deriving DecidableEq

/-- Outcome of running the consumer loop over a list of delivered records:
final processor state, number of offsets acknowledged (the offset advances
once per record whose handler resolved), the concatenated log, and whether
the loop is still running. -/
structure LoopResult where
  finalState : ProcessorState
  committed : Nat
  log : List LogEvent
  status : LoopStatus

/-- The consumer run loop: deliver each record, in order, to `eachMessage`;
the offset advances when the handler resolves; a rejection stops the loop. -/
def runLoop (st : ProcessorState) (now : Int) : List KafkaMessage → LoopResult
  | [] => { finalState := st, committed := 0, log := [], status := LoopStatus.running }
  | m :: ms =>
    match eachMessage st now m with
    | Except.error e =>
      { finalState := st, committed := 0, log := [], status := LoopStatus.crashed e }
    | Except.ok (st2, logs) =>
      let r := runLoop st2 now ms
      { finalState := r.finalState, committed := r.committed + 1,
        log := logs ++ r.log, status := r.status }

/-- The consumer group configuration. -/
structure ConsumerConfig where
  groupId : String
  sessionTimeout : Nat
  heartbeatInterval : Nat

/-- The configuration passed to `kafka.consumer` at lines 45-49 of the
consumer source. -/
def consumerConfig : ConsumerConfig :=
  { groupId := "database-changes-group"
    sessionTimeout := 30000
    heartbeatInterval := 3000 }

/-- Modelled from the spec: the underlying Kafka client (not part of this
sources of this repository) emits the n-th heartbeat at time
`n * heartbeatInterval`, a fixed schedule that takes no message input and is
therefore independent of message arrival. -/
def heartbeatSchedule (n : Nat) : Nat := n * consumerConfig.heartbeatInterval

/-- One step recorded during the graceful shutdown of the consumer. -/
inductive ShutEvent where
  | logInfo (s : String)
  | logError (s : String)
  | disconnectAttempt (ok : Bool)
  | serverClose
  | exitProcess (code : Nat)
deriving DecidableEq

/-- The `gracefulShutdown` handler, as the ordered list of steps it performs:
log the signal, await `consumer.disconnect()` (outcome `disconnectOk`), then
on success close the health server, log, and exit 0; a disconnect failure
jumps to the `catch`, which logs the error and exits 1. -/
def gracefulShutdown (signal : String) (disconnectOk : Bool) : List ShutEvent :=
  ShutEvent.logInfo ("Received " ++ signal ++ ", shutting down gracefully...") ::
    (if disconnectOk then
      [ShutEvent.disconnectAttempt true, ShutEvent.serverClose,
       ShutEvent.logInfo "Consumer disconnected successfully", ShutEvent.exitProcess 0]
    else
      [ShutEvent.disconnectAttempt false,
       ShutEvent.logError "Error during shutdown", ShutEvent.exitProcess 1])

/-- The consumer state machine phases named by the specification. -/
inductive ConsumerPhase where
  | disconnected
  | connecting
  | subscribed
  | running
deriving DecidableEq

/-- Effect of one shutdown step on the consumer phase: the disconnect
attempt (successful or not) takes the consumer out of `running`. -/
def phaseAfter (p : ConsumerPhase) (e : ShutEvent) : ConsumerPhase :=
  match e with
  | ShutEvent.disconnectAttempt _ => ConsumerPhase.disconnected
  | _ => p

/-- Phase after executing a list of shutdown steps. -/
def phaseAfterTrace (p : ConsumerPhase) (es : List ShutEvent) : ConsumerPhase :=
  es.foldl phaseAfter p

/-- A record handed to `producer.send`. -/
structure KafkaRecord where
  topic : String
  key : String
  value : String

/-- One observable step of a backend request handler, in program order:
database statements, the settled Kafka publish attempt (with whether the
broker delivered it), log lines, and the HTTP response. -/
inductive ApiEvent where
  | dbExecute (description : String)
  | kafkaAttempt (record : KafkaRecord) (delivered : Bool)
  | logInfo (s : String)
  | logError (s : String)
  | respond (status : Nat) (body : Json)

/-- The `changeLog` object built by `logDatabaseChange`: field order as in
the source object literal. -/
def changeLogJson (now : Int) (operation table : String) (data : Json)
    (userId : Option Int) : Json :=
  Json.obj [("timestamp", Json.str (toISOString now)),
            ("operation", Json.str operation),
            ("table", Json.str table),
            ("data", data),
            ("userId", match userId with | some u => Json.num u | none => Json.null)]

/-- Model of `producer.send`: resolves when the broker is reachable, rejects
otherwise (after the internal retries of the client). -/
def producerSend (brokerUp : Bool) (_record : KafkaRecord) : Except String Unit :=
  if brokerUp then Except.ok () else Except.error "Connection error: broker unreachable"

/-- `logDatabaseChange(operation, table, data, userId = null)`: builds the
change record, awaits `producer.send` to the fixed topic with key
`table + Date.now()` and the JSON-serialized record as value, and catches
any send failure, turning it into a `logger.error` line.  The function
always returns normally (the catch swallows the error). -/
def logDatabaseChange (brokerUp : Bool) (now : Int) (operation table : String)
    (data : Json) (userId : Option Int) : List ApiEvent :=
  let record : KafkaRecord :=
    { topic := "database-changes"
      key := table ++ "-" ++ toString now
      value := (changeLogJson now operation table data userId).render }
  ApiEvent.kafkaAttempt record brokerUp ::
    (match producerSend brokerUp record with
     | Except.ok _ => [ApiEvent.logInfo "Database change logged:"]
     | Except.error _ => [ApiEvent.logError "Failed to log database change to Kafka:"])

/-- Database error outcomes distinguished by the register handler. -/
inductive DbError where
  | dupEntry
  | other
deriving DecidableEq

/-- Model of `bcrypt.hash(password, 10)`: an injective hash stand-in. -/
def bcryptHash (password : String) : String := "bcrypt:" ++ password

/-- Model of `bcrypt.compare(password, hash)`. -/
def bcryptCompare (password hash : String) : Bool := hash == bcryptHash password

/-- Model of `jwt.sign({userId, username}, secret, ...)`. -/
def jwtSign (userId : Int) (username : String) : String :=
  "jwt:" ++ toString userId ++ ":" ++ username

/-- JS falsiness of a request-body string field: missing (`undefined`) or
the empty string. -/
def isFalsyStr (v : Option String) : Bool :=
  match v with
  | none => true
  | some s => s == ""

/-- The `data` object the register handler passes to `logDatabaseChange`:
`{ id: result.insertId, username, email }`. -/
def registerChangeData (insertId : Int) (u e : String) : Json :=
  Json.obj [("id", Json.num insertId), ("username", Json.str u), ("email", Json.str e)]

/-- The `POST /api/register` handler as the ordered list of its observable
steps.  `dbInsert` is the outcome of the `INSERT INTO users` statement
(`Except.ok insertId`, or a database error).  On a successful insert the
handler awaits `logDatabaseChange` before sending the 201 response; on a
database error `logDatabaseChange` is never reached. -/
def registerHandler (brokerUp : Bool) (now : Int)
    (username email password : Option String)
    (dbInsert : Except DbError Int) : List ApiEvent :=
  if isFalsyStr username || isFalsyStr email || isFalsyStr password then
    [ApiEvent.respond 400 (Json.obj [("error", Json.str "All fields are required")])]
  else
    let u := username.getD ""
    let e := email.getD ""
    let p := password.getD ""
    ApiEvent.dbExecute ("INSERT INTO users:" ++ u ++ ":" ++ e ++ ":" ++ bcryptHash p) ::
      match dbInsert with
      | Except.ok insertId =>
        logDatabaseChange brokerUp now "INSERT" "users" (registerChangeData insertId u e) none
          ++ [ApiEvent.respond 201
                (Json.obj [("message", Json.str "User registered successfully"),
                           ("userId", Json.num insertId)])]
      | Except.error err =>
        ApiEvent.logError "Registration error:" ::
          (if err = DbError.dupEntry then
            [ApiEvent.respond 400
              (Json.obj [("error", Json.str "Username or email already exists")])]
          else
            [ApiEvent.respond 500 (Json.obj [("error", Json.str "Internal server error")])])

/-- A row of the `users` table as returned by the login lookup. -/
structure UserRow where
  id : Int
  username : String
  email : String
  passwordHash : String

/-- The `activityLog` object built by the login and logout handlers. -/
def activityJson (now : Int) (userId : Int) (action ip : String) : Json :=
  Json.obj [("timestamp", Json.str (toISOString now)),
            ("userId", Json.num userId),
            ("action", Json.str action),
            ("ipAddress", Json.str ip)]

/-- The `POST /api/login` handler.  `rows` is the result of the user lookup
statement.  On success the handler stores the token, records the activity,
awaits `logDatabaseChange`, and only then responds 200. -/
def loginHandler (brokerUp : Bool) (now : Int) (username password : Option String)
    (clientIP : String) (rows : List UserRow) : List ApiEvent :=
  if isFalsyStr username || isFalsyStr password then
    [ApiEvent.respond 400
      (Json.obj [("error", Json.str "Username and password are required")])]
  else
    ApiEvent.dbExecute "SELECT * FROM users WHERE username OR email" ::
      match rows with
      | [] => [ApiEvent.respond 401 (Json.obj [("error", Json.str "Invalid credentials")])]
      | user :: _ =>
        if bcryptCompare (password.getD "") user.passwordHash then
          let token := jwtSign user.id user.username
          ApiEvent.dbExecute ("UPDATE users SET token:" ++ token) ::
            ApiEvent.logInfo "User activity:" ::
            ApiEvent.dbExecute ("INSERT INTO user_activity:LOGIN:" ++ clientIP) ::
            logDatabaseChange brokerUp now "INSERT" "user_activity"
                (activityJson now user.id "LOGIN" clientIP) (some user.id)
              ++ [ApiEvent.respond 200
                    (Json.obj [("message", Json.str "Login successful"),
                               ("token", Json.str token),
                               ("user", Json.obj [("id", Json.num user.id),
                                                  ("username", Json.str user.username),
                                                  ("email", Json.str user.email)])])]
        else
          [ApiEvent.respond 401 (Json.obj [("error", Json.str "Invalid credentials")])]

/-- The `POST /api/logout` handler (after `authenticateToken` has resolved
the id of the acting user).  Clears the token, records the activity, awaits
`logDatabaseChange`, then responds 200. -/
def logoutHandler (brokerUp : Bool) (now : Int) (userId : Int)
    (clientIP : String) : List ApiEvent :=
  ApiEvent.dbExecute "UPDATE users SET token = NULL" ::
    ApiEvent.logInfo "User activity:" ::
    ApiEvent.dbExecute ("INSERT INTO user_activity:LOGOUT:" ++ clientIP) ::
    logDatabaseChange brokerUp now "UPDATE" "users"
        (Json.obj [("id", Json.num userId), ("token", Json.null)]) (some userId)
      ++ [ApiEvent.respond 200 (Json.obj [("message", Json.str "Logout successful")])]

/-- The HTTP responses contained in a handler trace, in order. -/
def responses : List ApiEvent → List (Nat × Json)
  | [] => []
  | ApiEvent.respond s b :: es => (s, b) :: responses es
  | ApiEvent.dbExecute _ :: es => responses es
  | ApiEvent.kafkaAttempt _ _ :: es => responses es
  | ApiEvent.logInfo _ :: es => responses es
  | ApiEvent.logError _ :: es => responses es

/-- `true` exactly on statistics-snapshot log lines. -/
def isStatsLine : LogEvent → Bool
  | LogEvent.statsLine _ => true
  | _ => false

/-- `true` exactly on `process.exit` shutdown steps. -/
def isExitEvent : ShutEvent → Bool
  | ShutEvent.exitProcess _ => true
  | _ => false

/-- `processChange` either catches a thrown error (state unchanged, one
error line) or returns the result of the `try` block unchanged. -/
lemma processChange_cases (st : ProcessorState) (now : Int) (msg : KafkaMessage) :
    (∃ e, tryProcessChange st now msg = Except.error e ∧
      processChange st now msg =
        (st, [LogEvent.errorLine ("Error processing database change: " ++ e)])) ∨
    (∃ r, tryProcessChange st now msg = Except.ok r ∧ processChange st now msg = r) := by
  unfold processChange
  cases h : tryProcessChange st now msg with
  | error e => exact Or.inl ⟨e, rfl, rfl⟩
  | ok r => exact Or.inr ⟨r, rfl, rfl⟩

/-- Inversion of a successful `try` block: the payload was non-null bytes
that parsed to a non-`null` JSON value, the counter was incremented, and the
log is the processed record followed by the every-10th statistics line. -/
lemma tryProcessChange_ok_shape (st : ProcessorState) (now : Int) (msg : KafkaMessage)
    (r : ProcessorState × List LogEvent) (h : tryProcessChange st now msg = Except.ok r) :
    ∃ raw cd, msg.value = some raw ∧ Json.parse raw = some cd ∧ cd ≠ Json.null ∧
      r = ({ st with processedCount := st.processedCount + 1 },
        LogEvent.processedRecord (mkProcessed now cd) ::
          (if (st.processedCount + 1) % 10 = 0 then
            [LogEvent.statsLine (mkStats st now (st.processedCount + 1))] else [])) := by
  unfold tryProcessChange at h
  split at h
  · exact absurd h (by simp)
  next raw hv =>
    split at h
    · exact absurd h (by simp)
    next cd hp =>
      split at h
      · exact absurd h (by simp)
      next cd2 hne =>
        exact ⟨raw, cd, hv, hp, hne, (Except.ok.inj h).symm⟩

/-- The `try` block on a payload parsing to a non-null value succeeds with
the processed record and the every-10th statistics line. -/
lemma tryProcessChange_parsed (st : ProcessorState) (now : Int) (msg : KafkaMessage)
    (raw : String) (cd : Json) (h1 : msg.value = some raw) (h2 : Json.parse raw = some cd)
    (h3 : cd ≠ Json.null) :
    tryProcessChange st now msg =
      Except.ok ({ st with processedCount := st.processedCount + 1 },
        LogEvent.processedRecord (mkProcessed now cd) ::
          (if (st.processedCount + 1) % 10 = 0 then
            [LogEvent.statsLine (mkStats st now (st.processedCount + 1))] else [])) := by
  unfold tryProcessChange
  split
  next hv => rw [h1] at hv; exact absurd hv (by simp)
  next raw2 hv =>
    rw [h1] at hv
    injection hv with hv
    subst hv
    split
    next hp => rw [h2] at hp; exact absurd hp (by simp)
    next cd2 hp =>
      rw [h2] at hp
      injection hp with hp
      subst hp
      split
      · exact absurd rfl h3
      · rfl

/-- The success path of `processChange` on a payload parsing to a non-null
value. -/
lemma processChange_parsed (st : ProcessorState) (now : Int) (msg : KafkaMessage)
    (raw : String) (cd : Json) (h1 : msg.value = some raw) (h2 : Json.parse raw = some cd)
    (h3 : cd ≠ Json.null) :
    processChange st now msg =
      ({ st with processedCount := st.processedCount + 1 },
        LogEvent.processedRecord (mkProcessed now cd) ::
          (if (st.processedCount + 1) % 10 = 0 then
            [LogEvent.statsLine (mkStats st now (st.processedCount + 1))] else [])) := by
  unfold processChange
  rw [tryProcessChange_parsed st now msg raw cd h1 h2 h3]

/-- C7: the configured session timeout of the consumer (30000 ms) is at least an
order of magnitude above its heartbeat interval (3000 ms), and the modelled
heartbeat schedule fires at the fixed interval `n * heartbeatInterval`,
taking no message input. -/
theorem session_timeout_margin :
    consumerConfig.sessionTimeout = 30000 ∧
    consumerConfig.heartbeatInterval = 3000 ∧
    10 * consumerConfig.heartbeatInterval ≤ consumerConfig.sessionTimeout ∧
    ∀ n : Nat, heartbeatSchedule n = n * 3000 := by
  exact ⟨rfl, rfl, by norm_num [consumerConfig], fun n => rfl⟩

/-- C2: `calculateLatency` is `max(0, now - originalTimestamp)`, hence
non-negative even for a future original timestamp; consequently every
processed record emitted by `processChange` whose original timestamp was a
valid date carries a non-negative `processingLatency`. -/
theorem processing_latency_nonneg :
    (∀ now orig : Int,
        calculateLatency now orig = max 0 (now - orig) ∧ 0 ≤ calculateLatency now orig) ∧
    (∀ (st : ProcessorState) (now : Int) (msg : KafkaMessage) (p : ProcessedChange),
        LogEvent.processedRecord p ∈ (processChange st now msg).2 →
          p.processingLatency = calculateLatencyField now p.originalTimestamp ∧
          ∀ l, p.processingLatency = some l → 0 ≤ l) := by
  constructor
  · exact fun now orig => ⟨rfl, le_max_left _ _⟩
  · intro st now msg p hp
    rcases processChange_cases st now msg with ⟨e, _, hpc⟩ | ⟨r, hok, hpc⟩
    · rw [hpc] at hp; simp at hp
    · obtain ⟨raw, cd, hv, hparse, hne, hr⟩ := tryProcessChange_ok_shape st now msg r hok
      rw [hpc, hr] at hp
      simp only [List.mem_cons] at hp
      rcases hp with hp | hp

      · cases hp
        refine ⟨rfl, ?_⟩
        intro l hl
        unfold mkProcessed calculateLatencyField at hl
        rcases Option.map_eq_some'.mp hl with ⟨o, _, ho⟩
        rw [← ho]
        exact le_max_left _ _
      · by_cases hmod : (st.processedCount + 1) % 10 = 0 <;> simp [hmod] at hp

/-- C3: on every successfully parsed record `processChange` increments the
counter, and emits a statistics line exactly when the new running count is a
multiple of 10 (never more than one per record); every emitted snapshot
reports `totalProcessed` equal to the running count at emission time,
uptime as the elapsed milliseconds over 1000 rounded to whole seconds, and a
rate of `totalProcessed / (uptimeSeconds / 60)` (uptime in exact seconds)
rounded to two decimal places. -/
theorem stats_snapshot_every_ten (st : ProcessorState) (now : Int) (msg : KafkaMessage)
    (raw : String) (cd : Json) (h1 : msg.value = some raw) (h2 : Json.parse raw = some cd)
    (h3 : cd ≠ Json.null) :
    (processChange st now msg).1.processedCount = st.processedCount + 1 ∧
    (processChange st now msg).2.countP (fun e => isStatsLine e) =
      (if (st.processedCount + 1) % 10 = 0 then 1 else 0) ∧
    ∀ s, LogEvent.statsLine s ∈ (processChange st now msg).2 →
      (st.processedCount + 1) % 10 = 0 ∧
      s.totalProcessed = st.processedCount + 1 ∧
      s.uptime = round (((now - st.startTime : Int) : ℚ) / 1000) ∧
      s.averageProcessingRate =
        ((round (((s.totalProcessed : ℚ) /
            (((now - st.startTime : Int) : ℚ) / 1000 / 60)) * 100) : Int) : ℚ) / 100 := by
  rw [processChange_parsed st now msg raw cd h1 h2 h3]
  refine ⟨rfl, ?_, ?_⟩
  · by_cases hmod : (st.processedCount + 1) % 10 = 0 <;>
      simp [hmod, List.countP_cons, isStatsLine]
  · intro s hs
    by_cases hmod : (st.processedCount + 1) % 10 = 0
    · simp [hmod] at hs
      subst hs
      exact ⟨hmod, rfl, rfl, rfl⟩
    · simp [hmod] at hs

/-- C3 witness: with 9 records already processed and `startTime = 0`, the
10th record (processed at `now = 60000` ms) makes the counter 10 and emits
exactly one statistics line. -/
theorem stats_snapshot_every_ten_witness :
    (9 + 1) % 10 = 0 ∧
    (processChange ⟨9, 0⟩ 60000 ⟨3, none, some "\x7b\x22operation\x22:1\x7d"⟩).1.processedCount
      = 10 ∧
    (processChange ⟨9, 0⟩ 60000 ⟨3, none, some "\x7b\x22operation\x22:1\x7d"⟩).2.countP
      (fun e => isStatsLine e) = 1 := by
  have h := stats_snapshot_every_ten ⟨9, 0⟩ 60000 ⟨3, none, some "\x7b\x22operation\x22:1\x7d"⟩
    "\x7b\x22operation\x22:1\x7d" (Json.obj [("operation", Json.num 1)]) rfl rfl (by simp)
  refine ⟨by norm_num, h.1, ?_⟩
  rw [h.2.1]
  norm_num

/-- C5: processing the same raw record twice (any two invocations, at wall
clocks `now1`/`now2`, from any two processor states) emits two processed
records whose `operation`, `table`, `data`, `userId`, `originalTimestamp`
and `processedBy` agree, while `timestamp` and `processingLatency` are those
of the respective invocation; both invocations count the record (no
deduplication). -/
theorem reprocess_same_record_no_dedup (st1 st2 : ProcessorState) (now1 now2 : Int)
    (msg : KafkaMessage) (raw : String) (cd : Json)
    (h1 : msg.value = some raw) (h2 : Json.parse raw = some cd) (h3 : cd ≠ Json.null) :
    ∃ p1 t1 p2 t2,
      (processChange st1 now1 msg).2 = LogEvent.processedRecord p1 :: t1 ∧
      (processChange st2 now2 msg).2 = LogEvent.processedRecord p2 :: t2 ∧
      p1.operation = p2.operation ∧ p1.table = p2.table ∧ p1.data = p2.data ∧
      p1.userId = p2.userId ∧ p1.originalTimestamp = p2.originalTimestamp ∧
      p1.processedBy = p2.processedBy ∧ p1.timestamp = now1 ∧ p2.timestamp = now2 ∧
      p1.processingLatency = calculateLatencyField now1 (cd.getField "timestamp") ∧
      p2.processingLatency = calculateLatencyField now2 (cd.getField "timestamp") ∧
      (processChange st1 now1 msg).1.processedCount = st1.processedCount + 1 ∧
      (processChange st2 now2 msg).1.processedCount = st2.processedCount + 1 := by
  rw [processChange_parsed st1 now1 msg raw cd h1 h2 h3,
    processChange_parsed st2 now2 msg raw cd h1 h2 h3]
  exact ⟨mkProcessed now1 cd, _, mkProcessed now2 cd, _,
    rfl, rfl, rfl, rfl, rfl, rfl, rfl, rfl, rfl, rfl, rfl, rfl, rfl, rfl⟩

/-- C5 witness: the same raw record processed at clocks 10 and 20 is counted
both times and emitted with the two distinct processed timestamps. -/
theorem reprocess_same_record_no_dedup_witness :
    (processChange ⟨0, 0⟩ 10 ⟨3, none, some "\x7b\x22operation\x22:1\x7d"⟩).1.processedCount
      = 1 ∧
    (processChange ⟨0, 0⟩ 20 ⟨3, none, some "\x7b\x22operation\x22:1\x7d"⟩).1.processedCount
      = 1 ∧ (10 : Int) ≠ 20 := by
  have h := reprocess_same_record_no_dedup ⟨0, 0⟩ ⟨0, 0⟩ 10 20
    ⟨3, none, some "\x7b\x22operation\x22:1\x7d"⟩ "\x7b\x22operation\x22:1\x7d"
    (Json.obj [("operation", Json.num 1)]) rfl rfl (by simp)
  obtain ⟨p1, t1, p2, t2, e1, e2, f1, f2, f3, f4, f5, f6, ht1, ht2, l1, l2, c1, c2⟩ := h
  exact ⟨c1, c2, by norm_num⟩

/-- One step of the consumer loop: the handler always resolves, so the head
record is acknowledged and the loop continues on the tail. -/
lemma runLoop_cons (st : ProcessorState) (now : Int) (m : KafkaMessage)
    (ms : List KafkaMessage) :
    runLoop st now (m :: ms) =
      { finalState := (runLoop (processChange st now m).1 now ms).finalState
        committed := (runLoop (processChange st now m).1 now ms).committed + 1
        log := LogEvent.kafkaInfo m.offset m.key :: (processChange st now m).2 ++
          (runLoop (processChange st now m).1 now ms).log
        status := (runLoop (processChange st now m).1 now ms).status } := rfl

/-- The consumer loop acknowledges every delivered record and never leaves
the running state: each per-record handler resolves because `processChange`
catches internally. -/
lemma runLoop_keeps_running (now : Int) :
    ∀ (msgs : List KafkaMessage) (st : ProcessorState),
      (runLoop st now msgs).status = LoopStatus.running ∧
      (runLoop st now msgs).committed = msgs.length := by
  intro msgs
  induction msgs with
  | nil => exact fun st => ⟨rfl, rfl⟩
  | cons m ms ih =>
    intro st
    obtain ⟨hs, hc⟩ := ih (processChange st now m).1
    unfold runLoop
    simp only [eachMessage]
    simp [hs, hc]

/-- C4: a record whose payload is non-parseable JSON is caught at
deserialization for that record only: the consumer logs the error line,
leaves the processor state untouched, acknowledges the offset, and the rest
of the records are consumed as if the malformed one had not been there;
moreover the loop stays `running` and acknowledges every offset on any
input list. -/
theorem malformed_payload_skipped (st : ProcessorState) (now : Int) (m : KafkaMessage)
    (s : String) (rest : List KafkaMessage)
    (h1 : m.value = some s) (h2 : Json.parse s = none) :
    runLoop st now (m :: rest) =
      { finalState := (runLoop st now rest).finalState
        committed := (runLoop st now rest).committed + 1
        log := LogEvent.kafkaInfo m.offset m.key ::
          LogEvent.errorLine ("Error processing database change: " ++ "Unexpected token in JSON") ::
            (runLoop st now rest).log
        status := (runLoop st now rest).status } ∧
    (∀ msgs : List KafkaMessage, (runLoop st now msgs).status = LoopStatus.running ∧
      (runLoop st now msgs).committed = msgs.length) := by
  have htry : tryProcessChange st now m = Except.error "Unexpected token in JSON" := by
    unfold tryProcessChange
    split
    next hv => rw [h1] at hv; exact absurd hv (by simp)
    next raw2 hv =>
      rw [h1] at hv
      injection hv with hv
      subst hv
      split
      next => rfl
      next cd2 hp => rw [h2] at hp; exact absurd hp (by simp)
  have hpc : processChange st now m =
      (st, [LogEvent.errorLine ("Error processing database change: " ++
        "Unexpected token in JSON")]) := by
    unfold processChange
    rw [htry]
  constructor
  · rw [runLoop_cons, hpc]
    rfl
  · exact fun msgs => runLoop_keeps_running now msgs st

/-- C4 witness: a malformed record followed by a valid one — both offsets
acknowledged, the loop still running, only the valid record counted. -/
theorem malformed_payload_skipped_witness :
    Json.parse "oops" = none ∧
    (runLoop ⟨0, 0⟩ 50 [⟨5, none, some "oops"⟩, ⟨6, none, some "1"⟩]).committed = 2 ∧
    (runLoop ⟨0, 0⟩ 50 [⟨5, none, some "oops"⟩, ⟨6, none, some "1"⟩]).status
      = LoopStatus.running ∧
    (runLoop ⟨0, 0⟩ 50 [⟨5, none, some "oops"⟩,
      ⟨6, none, some "1"⟩]).finalState.processedCount = 1 := by
  have h := malformed_payload_skipped ⟨0, 0⟩ 50 ⟨5, none, some "oops"⟩ "oops"
    [⟨6, none, some "1"⟩] rfl rfl
  exact ⟨rfl, by rw [h.1]; rfl, (h.2 _).1, by rw [h.1]; rfl⟩

/-- C9: `processChange` is total on every delivered message — including a
null value, non-JSON bytes and a payload parsing to JSON `null` — because
every error thrown inside the `try` block is caught: the result is either
the single caught-error log line with the state untouched, or the normal
processed-record path with the counter incremented.  No error escapes (the
returned value is a plain pair, never an exception). -/
theorem process_change_never_rejects :
    ∀ (st : ProcessorState) (now : Int) (msg : KafkaMessage),
      (processChange st now msg).1.startTime = st.startTime ∧
      ((∃ e, tryProcessChange st now msg = Except.error e ∧
          processChange st now msg =
            (st, [LogEvent.errorLine ("Error processing database change: " ++ e)])) ∨
        ((processChange st now msg).1.processedCount = st.processedCount + 1 ∧
          ∃ p tail, (processChange st now msg).2 = LogEvent.processedRecord p :: tail)) := by
  intro st now msg
  rcases processChange_cases st now msg with ⟨e, htr, hpc⟩ | ⟨r, hok, hpc⟩
  · exact ⟨by rw [hpc], Or.inl ⟨e, htr, hpc⟩⟩
  · obtain ⟨raw, cd, hv, hparse, hne, hr⟩ := tryProcessChange_ok_shape st now msg r hok
    subst hr
    rw [hpc]
    exact ⟨rfl, Or.inr ⟨rfl, mkProcessed now cd, _, rfl⟩⟩

/-- C2 witness: a record whose original timestamp (epoch 99 ms) lies in the
future of the processing clock (5 ms) is emitted with latency clamped to
`some 0`, which is non-negative. -/
theorem processing_latency_nonneg_witness :
    LogEvent.processedRecord (mkProcessed 5 (Json.obj [("timestamp", Json.str "ISO:99")]))
      ∈ (processChange ⟨0, 0⟩ 5 ⟨1, none, some "\x7b\x22timestamp\x22:\x22ISO:99\x22\x7d"⟩).2 ∧
    (mkProcessed 5 (Json.obj [("timestamp", Json.str "ISO:99")])).processingLatency
      = some 0 ∧ (0 : Int) ≤ 0 := by
  have hmem : LogEvent.processedRecord
        (mkProcessed 5 (Json.obj [("timestamp", Json.str "ISO:99")]))
      ∈ (processChange ⟨0, 0⟩ 5 ⟨1, none, some "\x7b\x22timestamp\x22:\x22ISO:99\x22\x7d"⟩).2 :=
    List.mem_cons_self _ _
  exact ⟨hmem, rfl, (processing_latency_nonneg.2 _ _ _ _ hmem).2 0 rfl⟩

/-- C6: on a termination signal (either registered signal), the shutdown
path takes the consumer out of `running`, the trace ends in exactly one
`process.exit`, the disconnect attempt precedes it, the exit code is 0
exactly on a successful disconnect, and the health server is closed in the
same path (on the successful-disconnect branch). -/
theorem shutdown_disconnect_then_exit :
    ∀ (signal : String) (ok : Bool),
      phaseAfterTrace ConsumerPhase.running (gracefulShutdown signal ok)
        = ConsumerPhase.disconnected ∧
      ∃ pre, gracefulShutdown signal ok = pre ++ [ShutEvent.exitProcess (if ok then 0 else 1)] ∧
        ShutEvent.disconnectAttempt ok ∈ pre ∧
        (ShutEvent.serverClose ∈ pre ↔ ok = true) ∧
        pre.countP (fun e => isExitEvent e) = 0 := by
  intro signal ok
  cases ok
  · exact ⟨rfl,
      [ShutEvent.logInfo ("Received " ++ signal ++ ", shutting down gracefully..."),
       ShutEvent.disconnectAttempt false, ShutEvent.logError "Error during shutdown"],
      rfl, by simp, by simp, rfl⟩
  · exact ⟨rfl,
      [ShutEvent.logInfo ("Received " ++ signal ++ ", shutting down gracefully..."),
       ShutEvent.disconnectAttempt true, ShutEvent.serverClose,
       ShutEvent.logInfo "Consumer disconnected successfully"],
      rfl, by simp, by simp, rfl⟩

/-- C8: every publish goes through `logDatabaseChange`, whose first step is
the send to the fixed topic `database-changes`, keyed by the table name
concatenated (with a dash) with the capture time, carrying the JSON
serialization of the change record
`{timestamp, operation, table, data, userId}` (with `userId` encoded as
JSON null when absent). -/
theorem publish_record_shape :
    ∀ (brokerUp : Bool) (now : Int) (operation table : String) (data : Json)
      (userId : Option Int),
      ∃ tail,
        logDatabaseChange brokerUp now operation table data userId =
          ApiEvent.kafkaAttempt
            { topic := "database-changes"
              key := table ++ "-" ++ toString now
              value := Json.render (changeLogJson now operation table data userId) }
            brokerUp :: tail ∧
        changeLogJson now operation table data userId =
          Json.obj [("timestamp", Json.str (toISOString now)),
                    ("operation", Json.str operation),
                    ("table", Json.str table),
                    ("data", data),
                    ("userId", match userId with
                               | some u => Json.num u
                               | none => Json.null)] := by
  intro brokerUp now operation table data userId
  cases brokerUp
  · exact ⟨_, rfl, rfl⟩
  · exact ⟨_, rfl, rfl⟩

/-- The trace of the register handler on a successful insert with all fields
present. -/
lemma registerHandler_ok (brokerUp : Bool) (now : Int) (u e p : String) (insertId : Int)
    (hu : u ≠ "") (he : e ≠ "") (hp : p ≠ "") :
    registerHandler brokerUp now (some u) (some e) (some p) (Except.ok insertId) =
      ApiEvent.dbExecute ("INSERT INTO users:" ++ u ++ ":" ++ e ++ ":" ++ bcryptHash p) ::
        logDatabaseChange brokerUp now "INSERT" "users" (registerChangeData insertId u e) none
        ++ [ApiEvent.respond 201
              (Json.obj [("message", Json.str "User registered successfully"),
                         ("userId", Json.num insertId)])] := by
  unfold registerHandler
  split
  next hcond => simp [isFalsyStr, hu, he, hp] at hcond
  next => rfl

/-- C10: the register handler publishes its INSERT record with the `userId`
field equal to JSON null (the default acting-user value of the encoder); the new
row id appears only inside the `data` mapping of the record. -/
theorem register_publishes_null_userId (brokerUp : Bool) (now : Int) (u e p : String)
    (insertId : Int) (hu : u ≠ "") (he : e ≠ "") (hp : p ≠ "") :
    ApiEvent.kafkaAttempt
        { topic := "database-changes"
          key := "users" ++ "-" ++ toString now
          value := Json.render (changeLogJson now "INSERT" "users"
            (registerChangeData insertId u e) none) }
        brokerUp
      ∈ registerHandler brokerUp now (some u) (some e) (some p) (Except.ok insertId) ∧
    (changeLogJson now "INSERT" "users" (registerChangeData insertId u e) none).getField
      "userId" = some Json.null ∧
    ((changeLogJson now "INSERT" "users" (registerChangeData insertId u e) none).getField
      "data").bind (fun d => d.getField "id") = some (Json.num insertId) := by
  refine ⟨?_, rfl, rfl⟩
  rw [registerHandler_ok brokerUp now u e p insertId hu he hp]
  cases brokerUp <;> simp [logDatabaseChange]

/-- C10 witness: a concrete registration, where the `userId` field of the
published record being JSON null. -/
theorem register_publishes_null_userId_witness :
    ("alice" ≠ "" ∧ "a@b.c" ≠ "" ∧ "pw" ≠ "") ∧
    (changeLogJson 1000 "INSERT" "users" (registerChangeData 7 "alice" "a@b.c")
      none).getField "userId" = some Json.null := by
  have h := register_publishes_null_userId true 1000 "alice" "a@b.c" "pw" 7
    (by decide) (by decide) (by decide)
  exact ⟨⟨by decide, by decide, by decide⟩, h.2.1⟩

/-- `responses` distributes over trace concatenation. -/
lemma responses_append (xs ys : List ApiEvent) :
    responses (xs ++ ys) = responses xs ++ responses ys := by
  induction xs with
  | nil => rfl
  | cons x xs ih => cases x <;> simp [responses, ih]

/-- A publish attempt (delivered or failed) contributes no HTTP response. -/
lemma responses_logDatabaseChange (b : Bool) (now : Int) (op table : String) (data : Json)
    (uid : Option Int) :
    responses (logDatabaseChange b now op table data uid) = [] := by
  cases b <;> rfl

/-- The HTTP response of the register handler does not depend on broker
availability. -/
lemma responses_registerHandler_broker (now : Int) (username email password : Option String)
    (dbInsert : Except DbError Int) :
    responses (registerHandler true now username email password dbInsert) =
      responses (registerHandler false now username email password dbInsert) := by
  by_cases hc : (isFalsyStr username || isFalsyStr email || isFalsyStr password) = true
  · simp [registerHandler, hc]
  · rw [Bool.not_eq_true] at hc
    cases dbInsert with
    | ok insertId =>
      simp [registerHandler, hc, responses, responses_append, responses_logDatabaseChange]
    | error err =>
      simp [registerHandler, hc, responses]

/-- The HTTP response of the login handler does not depend on broker
availability. -/
lemma responses_loginHandler_broker (now : Int) (username password : Option String)
    (clientIP : String) (rows : List UserRow) :
    responses (loginHandler true now username password clientIP rows) =
      responses (loginHandler false now username password clientIP rows) := by
  by_cases hc : (isFalsyStr username || isFalsyStr password) = true
  · simp [loginHandler, hc]
  · rw [Bool.not_eq_true] at hc
    cases rows with
    | nil => simp [loginHandler, hc, responses]
    | cons user rest =>
      by_cases hb : bcryptCompare (password.getD "") user.passwordHash = true
      · simp [loginHandler, hc, hb, responses, responses_append, responses_logDatabaseChange]
      · rw [Bool.not_eq_true] at hb
        simp [loginHandler, hc, hb, responses]

/-- The HTTP response of the logout handler does not depend on broker
availability. -/
lemma responses_logoutHandler_broker (now : Int) (userId : Int) (clientIP : String) :
    responses (logoutHandler true now userId clientIP) =
      responses (logoutHandler false now userId clientIP) := by
  simp [logoutHandler, responses, responses_append, responses_logDatabaseChange]

/-- C1 (amended): on every mutation write path (register, login, logout) a
publish failure is caught inside `logDatabaseChange`, logged as an error
line, and swallowed (the function returns normally, never an exception), and
the HTTP responses are identical whether the broker is up or down.  (The
handlers do, however, await the publish attempt — see the counterexample —
so the response is sequenced after the attempt settles.) -/
theorem publish_failure_swallowed_amended :
    ∀ (now : Int) (username email password : Option String) (dbInsert : Except DbError Int)
      (clientIP : String) (rows : List UserRow) (userId : Int),
      responses (registerHandler true now username email password dbInsert) =
        responses (registerHandler false now username email password dbInsert) ∧
      responses (loginHandler true now username password clientIP rows) =
        responses (loginHandler false now username password clientIP rows) ∧
      responses (logoutHandler true now userId clientIP) =
        responses (logoutHandler false now userId clientIP) ∧
      (∀ (op table : String) (data : Json) (uid : Option Int),
        ∃ r, logDatabaseChange false now op table data uid =
          [ApiEvent.kafkaAttempt r false,
           ApiEvent.logError "Failed to log database change to Kafka:"]) := by
  intro now username email password dbInsert clientIP rows userId
  exact ⟨responses_registerHandler_broker now username email password dbInsert,
    responses_loginHandler_broker now username password clientIP rows,
    responses_logoutHandler_broker now userId clientIP,
    fun op table data uid => ⟨_, rfl⟩⟩

/-- C1 counterexample: with the broker down, the trace of the register write path
places the settled (failed) publish attempt and its error log strictly
before the HTTP response — the handler awaited the publish inside the write
path, so the publish does block the invoking write path (it is not
fire-and-forget), refuting the claim as stated; the response content is
nevertheless unaffected. -/
theorem register_awaits_publish_counterexample :
    registerHandler false 1000 (some "alice") (some "a@b.c") (some "pw") (Except.ok 7) =
      [ApiEvent.dbExecute ("INSERT INTO users:" ++ "alice" ++ ":" ++ "a@b.c" ++ ":" ++
          bcryptHash "pw"),
       ApiEvent.kafkaAttempt
         { topic := "database-changes"
           key := "users" ++ "-" ++ toString (1000 : Int)
           value := Json.render (changeLogJson 1000 "INSERT" "users"
             (registerChangeData 7 "alice" "a@b.c") none) }
         false,
       ApiEvent.logError "Failed to log database change to Kafka:",
       ApiEvent.respond 201
         (Json.obj [("message", Json.str "User registered successfully"),
                    ("userId", Json.num 7)])] := by
  rfl
